import Mathlib

/-!
Shallow embedding of the volume-lifecycle state machine of the ceph-csi
excerpt: the rbd controller server (CreateVolume / DeleteVolume /
ValidateVolumeCapabilities, from the unnamed rbd controllerserver file)
and the cephfs node server (getOrCreateUser / NodeStageVolume /
NodeUnstageVolume, from pkg/cephfs/nodeserver.go).

External collaborators (the rbd/ceph backend, the mounter, file I/O for
the metadata store and credential store) are modelled as per-call oracle
inputs bundled in an environment record; each handler returns its RPC
result together with the successor state and a log of the externally
visible effects it performed.
-/

namespace CephCsi

/-- gRPC status codes used by the handlers. -/
inductive ErrCode
  | invalidArgument
  | alreadyExists
  | internal
deriving DecidableEq, Repr

/-- Association-list update with Go-map semantics: `m[k] = v` replaces any
previous binding of `k`. -/
def mapInsert {α : Type} (m : List (String × α)) (k : String) (v : α) :
    List (String × α) :=
  (k, v) :: m.filter (fun p => !(p.1 == k))

/-- Association-list lookup, Go-map semantics. -/
def mapLookup {α : Type} (m : List (String × α)) (k : String) : Option α :=
  (m.find? (fun p => p.1 == k)).map (fun p => p.2)

/-- Association-list removal, Go-map `delete` semantics. -/
def mapErase {α : Type} (m : List (String × α)) (k : String) :
    List (String × α) :=
  m.filter (fun p => !(p.1 == k))

/-! ## Controller-side data model (rbd) -/

/-- Constant `oneGB` from the rbd controller file. -/
def oneGB : Int := 1073741824

/-- The `rbdVolume` record: the fields the controller handlers read or
write (`VolID`, `VolName`, `Pool`, `VolSize`). -/
structure RBDVolume where
  volID : String
  volName : String
  pool : String
  volSize : Int
deriving DecidableEq, Repr

/-- A `csi.CreateVolumeRequest`: `Name`, presence of `VolumeCapabilities`,
the optional `CapacityRange` (`none` models a nil range; Go getters on a
nil range yield `RequiredBytes = 0`), and the `Parameters` map. -/
structure CreateVolumeRequest where
  name : String
  hasVolumeCapabilities : Bool
  capacityRange : Option Int
  parameters : List (String × String)
deriving DecidableEq, Repr

/-- Reading `req.GetCapacityRange().GetRequiredBytes()`: a nil range reads as 0. -/
def getRequiredBytes (req : CreateVolumeRequest) : Int :=
  match req.capacityRange with
  | none => 0
  | some b => b

/-- The `csi.Volume` payload of a `CreateVolumeResponse` (`Id`,
`CapacityBytes`; the passthrough `Attributes` echo the request and are
omitted). -/
structure CreateVolumeResponse where
  id : String
  capacityBytes : Int
deriving DecidableEq, Repr

/-- Controller-visible state: the in-memory `rbdVolumes` index, the
durable per-volume metadata store written by `persistVolInfo`, and the
set of image names existing in the backend (probed by `rbdStatus`,
extended by `createRBDImage`, shrunk by `deleteRBDImage`). -/
structure ControllerState where
  rbdVolumes : List (String × RBDVolume)
  persisted : List (String × RBDVolume)
  backendImages : List String
deriving DecidableEq, Repr

/-- Modelled from the spec: `getRBDVolumeByName` is absent from the
excerpt; the spec says `CreateVolume` performs a lookup-before-create of
the existing volume by request `Name` over the in-memory index. -/
def getRBDVolumeByName (st : ControllerState) (name : String) :
    Option RBDVolume :=
  (st.rbdVolumes.find? (fun p => p.2.volName == name)).map (fun p => p.2)

/-- Modelled from the spec: `getRBDVolumeOptions` is absent from the
excerpt; the spec says backend placement parameters (the pool) are parsed
from the request `Parameters`, and an unparseable map is a caller error. -/
def getRBDVolumeOptions (params : List (String × String)) :
    Option RBDVolume :=
  match mapLookup params "pool" with
  | none => none
  | some pool => some { volID := "", volName := "", pool := pool, volSize := 0 }

/-- Per-call oracle inputs for `CreateVolume`: the driver-capability
validation verdict, the fresh `uuid.NewUUID().String()` token, and the
success of the external `createRBDImage` and `persistVolInfo` calls. -/
structure CreateEnv where
  capValid : Bool
  uniqueID : String
  createImageOk : Bool
  persistOk : Bool
deriving DecidableEq, Repr

/-- Result of a `CreateVolume` call: the RPC result, the successor state,
and the log of `createRBDImage` invocations as (image name, size in GB)
pairs. -/
structure CreateOutcome where
  result : Except ErrCode CreateVolumeResponse
  state : ControllerState
  createdImages : List (String × Int)
deriving Repr

/-- The size in bytes chosen by `CreateVolume`: `oneGB` when the request
carries no `CapacityRange`, otherwise `RequiredBytes`. -/
def volSizeBytesOf (req : CreateVolumeRequest) : Int :=
  match req.capacityRange with
  | none => oneGB
  | some b => b

/-- Computation `int(volSizeBytes / 1024 / 1024 / 1024)`: Go `int64` division
truncates toward zero, which is `Int.tdiv`. -/
def volSizeGBOf (volSizeBytes : Int) : Int :=
  ((volSizeBytes.tdiv 1024).tdiv 1024).tdiv 1024

/-- Tail of `CreateVolume` from the `persistVolInfo` call on: a persist
failure is only logged (a warning) and does not change the result; the
in-memory index is then updated and success is returned. -/
def createVolumeFinish (st : ControllerState) (env : CreateEnv)
    (volumeID : String) (rbdVol : RBDVolume)
    (created : List (String × Int)) : CreateOutcome :=
  ⟨.ok ⟨volumeID, rbdVol.volSize⟩,
    { rbdVolumes := mapInsert st.rbdVolumes volumeID rbdVol,
      persisted := if env.persistOk then
        mapInsert st.persisted volumeID rbdVol else st.persisted,
      backendImages := st.backendImages },
    created⟩

/-- Handler `controllerServer.CreateVolume`. -/
def CreateVolume (st : ControllerState) (env : CreateEnv)
    (req : CreateVolumeRequest) : CreateOutcome :=
  if ¬ env.capValid then ⟨.error .invalidArgument, st, []⟩
  else if req.name.length = 0 then ⟨.error .invalidArgument, st, []⟩
  else if ¬ req.hasVolumeCapabilities then ⟨.error .invalidArgument, st, []⟩
  else
    match getRBDVolumeByName st req.name with
    | some exVol =>
      if getRequiredBytes req ≤ exVol.volSize then
        ⟨.ok ⟨exVol.volID, exVol.volSize⟩, st, []⟩
      else
        ⟨.error .alreadyExists, st, []⟩
    | none =>
      match getRBDVolumeOptions req.parameters with
      | none => ⟨.error .invalidArgument, st, []⟩
      | some rbdVol0 =>
        let volName :=
          if req.name.length = 0 then
            rbdVol0.pool ++ "-dynamic-pvc-" ++ env.uniqueID
          else req.name
        let volumeID := "csi-rbd-" ++ env.uniqueID
        let volSizeBytes := volSizeBytesOf req
        let rbdVol := { rbdVol0 with
          volName := volName, volID := volumeID, volSize := volSizeBytes }
        let volSizeGB := volSizeGBOf volSizeBytes
        if volName ∈ st.backendImages then
          createVolumeFinish st env volumeID rbdVol []
        else if ¬ env.createImageOk then
          ⟨.error .internal, st, [(volName, volSizeGB)]⟩
        else
          createVolumeFinish
            { st with backendImages := volName :: st.backendImages }
            env volumeID rbdVol [(volName, volSizeGB)]

/-- The three externally visible removal effects of `DeleteVolume`, in the
order the handler performs them. -/
inductive DeleteEffect
  | backendDelete
  | recordDelete
  | indexRemove
deriving DecidableEq, Repr

/-- Per-call oracle inputs for `DeleteVolume`: driver-capability
validation, and the success of the external `loadVolInfo` read,
`deleteRBDImage`, and `deleteVolInfo` calls. -/
structure DeleteEnv where
  capValid : Bool
  loadOk : Bool
  deleteImageOk : Bool
  deleteVolInfoOk : Bool
deriving DecidableEq, Repr

/-- Result of a `DeleteVolume` call: the RPC result, the successor state,
and the trace of removal effects that completed successfully. -/
structure DeleteOutcome where
  result : Except ErrCode Unit
  state : ControllerState
  trace : List DeleteEffect
deriving Repr

/-- Handler `controllerServer.DeleteVolume`: load the persisted record (Internal
if absent or unreadable), delete the backend image, delete the persisted
record, remove the in-memory index entry — each step aborting the rest on
failure. -/
def DeleteVolume (st : ControllerState) (env : DeleteEnv)
    (volumeID : String) : DeleteOutcome :=
  if ¬ env.capValid then ⟨.error .invalidArgument, st, []⟩
  else
    match mapLookup st.persisted volumeID with
    | none => ⟨.error .internal, st, []⟩
    | some rbdVol =>
      if ¬ env.loadOk then ⟨.error .internal, st, []⟩
      else if ¬ env.deleteImageOk then ⟨.error .internal, st, []⟩
      else
        let st1 := { st with
          backendImages := st.backendImages.filter (fun n => !(n == rbdVol.volName)) }
        if ¬ env.deleteVolInfoOk then
          ⟨.error .internal, st1, [.backendDelete]⟩
        else
          let st2 := { st1 with persisted := mapErase st1.persisted volumeID }
          let st3 := { st2 with rbdVolumes := mapErase st2.rbdVolumes volumeID }
          ⟨.ok (), st3, [.backendDelete, .recordDelete, .indexRemove]⟩

/-! ## ValidateVolumeCapabilities -/

/-- Values of `csi.VolumeCapability_AccessMode_Mode`. -/
inductive AccessMode
  | unknown
  | singleNodeWriter
  | singleNodeReaderOnly
  | multiNodeReaderOnly
  | multiNodeSingleWriter
  | multiNodeMultiWriter
deriving DecidableEq, Repr

/-- Reading `cap.GetAccessMode().GetMode()`: a nil `AccessMode` reads as the
zero value `UNKNOWN`. -/
def getMode (cap : Option AccessMode) : AccessMode :=
  match cap with
  | none => .unknown
  | some m => m

/-- The `csi.ValidateVolumeCapabilitiesResponse` payload. -/
structure ValidateVolumeCapabilitiesResponse where
  supported : Bool
  message : String
deriving DecidableEq, Repr

/-- The request loop of `ValidateVolumeCapabilities`: return
`Supported: false` at the first capability whose mode is not
single-node-writer, `Supported: true` once the list is exhausted. -/
def validateCapsLoop : List (Option AccessMode) →
    ValidateVolumeCapabilitiesResponse
  | [] => ⟨true, ""⟩
  | cap :: rest =>
    if ¬ (getMode cap = .singleNodeWriter) then ⟨false, ""⟩
    else validateCapsLoop rest

/-- Handler `controllerServer.ValidateVolumeCapabilities`: always a data
response, never a protocol error. -/
def ValidateVolumeCapabilities (caps : List (Option AccessMode)) :
    Except ErrCode ValidateVolumeCapabilitiesResponse :=
  .ok (validateCapsLoop caps)

/-! ## Node-side data model (cephfs) -/

/-- A ceph identity/secret pair (`credentials`). -/
structure Credentials where
  id : String
  key : String
deriving DecidableEq, Repr

/-- The fields of `volumeOptions` the node handlers read or write. -/
structure VolumeOptions where
  monitors : String
  rootPath : String
  provisionVolume : Bool
deriving DecidableEq, Repr

/-- Record `nodeCacheEntry`: the stage-time volume options, plus the admin
identity when (and only when) the volume was dynamically provisioned
(`cephAdminID` keeps its Go zero value `""` otherwise). -/
structure NodeCacheEntry where
  volOptions : VolumeOptions
  cephAdminID : String
deriving DecidableEq, Repr

/-- A ceph auth entity as returned by `createCephUser`. -/
structure CephEntity where
  entity : String
  key : String
deriving DecidableEq, Repr

/-- Node-visible state: the `nodeCache` map and the set of paths that are
currently mount points on this node. -/
structure NodeState where
  nodeCache : List (String × NodeCacheEntry)
  mounts : List String
deriving DecidableEq, Repr

/-- Externally visible effects of the node-stage path: credential
resolution (`getAdminCredentials`/`getUserCredentials`), credential
persistence (`storeCephCredentials`), a `nodeCache` insertion, a
`createCephUser` call, and a mounter `mount` call. -/
inductive NodeEff
  | credResolve
  | credStore
  | cacheIns
  | userCreate
  | mountCall
deriving DecidableEq, Repr

/-- The string constant of the cephfs package holding the ceph client
entity leader; the id of a created user is its entity name with this
leader stripped. -/
def cephEntityClient : String := "client."

/-- Modelled from the spec: `getVolumeRootPath_ceph` is absent from the
excerpt; the spec says the dedicated user is scoped to a per-volume root
path inside the backend namespace, derived from the volume ID. -/
def getVolumeRootPath_ceph (volId : String) : String :=
  "/csi-volumes/csi-vol-" ++ volId

/-- Per-call oracle inputs for `NodeStageVolume`: request validation,
the `newVolumeOptions` parse result, success of `createMountPoint` and of
the ceph-config write, success of the `isMountPoint` stat, the
`getAdminCredentials`/`getUserCredentials` results, success of the two
`storeCephCredentials` writes, the `createCephUser` result, and success
of the mounter call. -/
structure StageEnv where
  validateOk : Bool
  volOptions : Option VolumeOptions
  createMountPointOk : Bool
  writeConfOk : Bool
  statOk : Bool
  adminCreds : Option Credentials
  storeAdminOk : Bool
  createUserResult : Option CephEntity
  userCreds : Option Credentials
  storeUserOk : Bool
  mountOk : Bool
deriving Repr

/-- Result of `getOrCreateUser`: the resolved user credentials together
with the (possibly updated) volume options on success, the successor
state, and the effect log. -/
structure UserOutcome where
  result : Option (Credentials × VolumeOptions)
  state : NodeState
  effects : List NodeEff
deriving Repr

/-- Function `getOrCreateUser`: for a dynamically provisioned volume, resolve and
store the admin credentials, insert the cache entry, then create the
dedicated user and set the volume root path; for a pre-made volume, take
the user-supplied credentials and insert a cache entry without an admin
identity; finally store the user credentials. The cache insertion
precedes the user creation and the mount, and no failure removes it. -/
def getOrCreateUser (st : NodeState) (env : StageEnv)
    (volOptions : VolumeOptions) (volId : String) : UserOutcome :=
  if volOptions.provisionVolume then
    match env.adminCreds with
    | none => ⟨none, st, [.credResolve]⟩
    | some adminCr =>
      if ¬ env.storeAdminOk then ⟨none, st, [.credResolve, .credStore]⟩
      else
        let st1 := { st with
          nodeCache := mapInsert st.nodeCache volId ⟨volOptions, adminCr.id⟩ }
        match env.createUserResult with
        | none =>
          ⟨none, st1, [.credResolve, .credStore, .cacheIns, .userCreate]⟩
        | some ent =>
          let userCr : Credentials :=
            ⟨ent.entity.drop cephEntityClient.length, ent.key⟩
          let volOptions1 :=
            { volOptions with rootPath := getVolumeRootPath_ceph volId }
          if ¬ env.storeUserOk then
            ⟨none, st1,
              [.credResolve, .credStore, .cacheIns, .userCreate, .credStore]⟩
          else
            ⟨some (userCr, volOptions1), st1,
              [.credResolve, .credStore, .cacheIns, .userCreate, .credStore]⟩
  else
    match env.userCreds with
    | none => ⟨none, st, [.credResolve]⟩
    | some userCr =>
      let st1 := { st with
        nodeCache := mapInsert st.nodeCache volId ⟨volOptions, ""⟩ }
      if ¬ env.storeUserOk then
        ⟨none, st1, [.credResolve, .cacheIns, .credStore]⟩
      else
        ⟨some (userCr, volOptions), st1, [.credResolve, .cacheIns, .credStore]⟩

/-- Result of a node RPC: the RPC result, the successor state, and the
effect log. -/
structure StageOutcome where
  result : Except ErrCode Unit
  state : NodeState
  effects : List NodeEff
deriving Repr

/-- Handler `nodeServer.NodeStageVolume`: validate, parse options, ensure the
staging directory, write the ceph config, probe `isMountPoint` and
short-circuit success when the path is already mounted; otherwise resolve
or create the user and mount. -/
def NodeStageVolume (st : NodeState) (env : StageEnv)
    (volId stagingTargetPath : String) : StageOutcome :=
  if ¬ env.validateOk then ⟨.error .invalidArgument, st, []⟩
  else
    match env.volOptions with
    | none => ⟨.error .invalidArgument, st, []⟩
    | some volOptions =>
      if ¬ env.createMountPointOk then ⟨.error .internal, st, []⟩
      else if ¬ env.writeConfOk then ⟨.error .internal, st, []⟩
      else if ¬ env.statOk then ⟨.error .internal, st, []⟩
      else if stagingTargetPath ∈ st.mounts then ⟨.ok (), st, []⟩
      else
        let u := getOrCreateUser st env volOptions volId
        match u.result with
        | none => ⟨.error .internal, u.state, u.effects⟩
        | some _ =>
          if ¬ env.mountOk then
            ⟨.error .internal, u.state, u.effects ++ [.mountCall]⟩
          else
            ⟨.ok (),
              { u.state with mounts := stagingTargetPath :: u.state.mounts },
              u.effects ++ [.mountCall]⟩

/-- Modelled from the spec: the `nodeCache` container is absent from the
excerpt; the spec says `pop` removes and returns the entry for a volume
ID, and the absence of an entry is itself an error. -/
def nodeCachePop (c : List (String × NodeCacheEntry)) (k : String) :
    Option (NodeCacheEntry × List (String × NodeCacheEntry)) :=
  match mapLookup c k with
  | none => none
  | some ent => some (ent, mapErase c k)

/-- Per-call oracle inputs for `NodeUnstageVolume`: request validation,
success of `unmountVolume`, and success of `deleteCephUser`. -/
structure UnstageEnv where
  validateOk : Bool
  unmountOk : Bool
  deleteUserOk : Bool
deriving DecidableEq, Repr

/-- Handler `nodeServer.NodeUnstageVolume`: validate, unmount the staging path,
pop the cache entry (Internal if absent); when the entry marks a
dynamically provisioned volume, delete the dedicated user, and on failure
reinsert the popped entry before returning Internal. -/
def NodeUnstageVolume (st : NodeState) (env : UnstageEnv)
    (volId stagingTargetPath : String) : StageOutcome :=
  if ¬ env.validateOk then ⟨.error .invalidArgument, st, []⟩
  else if ¬ env.unmountOk then ⟨.error .internal, st, []⟩
  else
    let st1 := { st with
      mounts := st.mounts.filter (fun p => !(p == stagingTargetPath)) }
    match nodeCachePop st1.nodeCache volId with
    | none => ⟨.error .internal, st1, []⟩
    | some (ent, rest) =>
      if ent.volOptions.provisionVolume then
        if ¬ env.deleteUserOk then
          ⟨.error .internal,
            { st1 with nodeCache := mapInsert rest volId ent }, []⟩
        else
          ⟨.ok (), { st1 with nodeCache := rest }, []⟩
      else
        ⟨.ok (), { st1 with nodeCache := rest }, []⟩

/-! ## Shared example inputs (used by the concrete witnesses) -/

/-- The empty controller state. -/
def exSt0 : ControllerState := ⟨[], [], []⟩

/-- A benign controller environment: capability valid, fresh token
`"u1"`, backend create and persist both succeed. -/
def exEnv : CreateEnv := ⟨true, "u1", true, true⟩

/-- The spec example request: `name="pvc-1"`, `requiredBytes=2 GiB`. -/
def exReq1 : CreateVolumeRequest :=
  ⟨"pvc-1", true, some 2147483648, [("pool", "rbd")]⟩

/-! ## Helper lemmas -/

/-- Looking a name up in a state whose index was just updated by
`mapInsert` of a volume carrying that name finds that volume. -/
lemma getRBDVolumeByName_rbdVolumes (st : ControllerState)
    (m : List (String × RBDVolume)) (volumeID : String) (v : RBDVolume)
    (name : String) (hm : st.rbdVolumes = mapInsert m volumeID v)
    (hv : v.volName = name) :
    getRBDVolumeByName st name = some v := by
  unfold getRBDVolumeByName
  rw [hm]
  unfold mapInsert
  rw [List.find?_cons_of_pos]
  · rfl
  · simp [hv]

/-- A successful `CreateVolume` leaves, in the successor state, a volume
findable under the request name whose identity and size match the
response. -/
lemma createVolume_ok_lookup (st : ControllerState) (env : CreateEnv)
    (req : CreateVolumeRequest) (resp : CreateVolumeResponse)
    (h : (CreateVolume st env req).result = .ok resp) :
    req.name.length ≠ 0 ∧
    ∃ v, getRBDVolumeByName (CreateVolume st env req).state req.name = some v ∧
      v.volID = resp.id ∧ v.volSize = resp.capacityBytes := by
  by_cases hc : env.capValid
  case neg => simp [CreateVolume, hc] at h
  by_cases hn : req.name.length = 0
  case pos => simp [CreateVolume, hc, hn] at h
  by_cases hvc : req.hasVolumeCapabilities
  case neg => simp [CreateVolume, hc, hn, hvc] at h
  refine ⟨hn, ?_⟩
  cases hlook : getRBDVolumeByName st req.name with
  | some exVol =>
    by_cases hle : getRequiredBytes req ≤ exVol.volSize
    · have hres : (CreateVolume st env req).result
          = .ok ⟨exVol.volID, exVol.volSize⟩ := by
        simp [CreateVolume, hc, hn, hvc, hlook, hle]
      have hst : (CreateVolume st env req).state = st := by
        simp [CreateVolume, hc, hn, hvc, hlook, hle]
      rw [hres] at h
      injection h with h'
      refine ⟨exVol, ?_, ?_, ?_⟩
      · rw [hst]; exact hlook
      · rw [← h']
      · rw [← h']
    · simp [CreateVolume, hc, hn, hvc, hlook, hle] at h
  | none =>
    cases hopts : getRBDVolumeOptions req.parameters with
    | none => simp [CreateVolume, hc, hn, hvc, hlook, hopts] at h
    | some rbdVol0 =>
      by_cases hmem : req.name ∈ st.backendImages
      · have hres : (CreateVolume st env req).result
            = .ok ⟨"csi-rbd-" ++ env.uniqueID, volSizeBytesOf req⟩ := by
          simp [CreateVolume, createVolumeFinish, hc, hn, hvc, hlook, hopts,
            hmem]
        have hvols : (CreateVolume st env req).state.rbdVolumes
            = mapInsert st.rbdVolumes ("csi-rbd-" ++ env.uniqueID)
                ⟨"csi-rbd-" ++ env.uniqueID, req.name, rbdVol0.pool,
                  volSizeBytesOf req⟩ := by
          simp [CreateVolume, createVolumeFinish, hc, hn, hvc, hlook, hopts,
            hmem]
        rw [hres] at h
        injection h with h'
        refine ⟨_, getRBDVolumeByName_rbdVolumes _ _ _ _ _ hvols rfl, ?_, ?_⟩
        · rw [← h']
        · rw [← h']
      · by_cases himg : env.createImageOk
        · have hres : (CreateVolume st env req).result
              = .ok ⟨"csi-rbd-" ++ env.uniqueID, volSizeBytesOf req⟩ := by
            simp [CreateVolume, createVolumeFinish, hc, hn, hvc, hlook,
              hopts, hmem, himg]
          have hvols : (CreateVolume st env req).state.rbdVolumes
              = mapInsert st.rbdVolumes ("csi-rbd-" ++ env.uniqueID)
                  ⟨"csi-rbd-" ++ env.uniqueID, req.name, rbdVol0.pool,
                    volSizeBytesOf req⟩ := by
            simp [CreateVolume, createVolumeFinish, hc, hn, hvc, hlook,
              hopts, hmem, himg]
          rw [hres] at h
          injection h with h'
          refine ⟨_, getRBDVolumeByName_rbdVolumes _ _ _ _ _ hvols rfl, ?_, ?_⟩
          · rw [← h']
          · rw [← h']
        · simp [CreateVolume, hc, hn, hvc, hlook, hopts, hmem, himg] at h

/-! ## C1 -/

/-- C1: a second `CreateVolume` call with the same (non-empty) name and a
requested size at most the size recorded by a first successful call
returns the same `volumeId` and `capacityBytes` as the first call and
invokes no backend image creation. -/
theorem createVolume_idempotentReuse
    (st : ControllerState) (env1 env2 : CreateEnv)
    (req1 req2 : CreateVolumeRequest) (resp1 : CreateVolumeResponse)
    (h1 : (CreateVolume st env1 req1).result = .ok resp1)
    (hname : req2.name = req1.name)
    (hcap2 : env2.capValid = true)
    (hvc2 : req2.hasVolumeCapabilities = true)
    (hsize : getRequiredBytes req2 ≤ resp1.capacityBytes) :
    (CreateVolume (CreateVolume st env1 req1).state env2 req2).result =
      .ok ⟨resp1.id, resp1.capacityBytes⟩ ∧
    (CreateVolume (CreateVolume st env1 req1).state env2 req2).createdImages
      = [] := by
  obtain ⟨hn1, v, hlook, hid, hsz⟩ :=
    createVolume_ok_lookup st env1 req1 resp1 h1
  have hn2 : ¬ (req2.name.length = 0) := by rw [hname]; exact hn1
  have hlook2 :
      getRBDVolumeByName (CreateVolume st env1 req1).state req2.name
        = some v := by rw [hname]; exact hlook
  have hle : getRequiredBytes req2 ≤ v.volSize := by rw [hsz]; exact hsize
  generalize hgen : (CreateVolume st env1 req1).state = st1 at hlook2 ⊢
  constructor
  · simp [CreateVolume, hcap2, hn2, hvc2, hlook2, hle, hid, hsz, hsize]
  · simp [CreateVolume, hcap2, hn2, hvc2, hlook2, hle, hid, hsz, hsize]

/-- Witness for C1: the example of the spec. The first call on the empty store
returns a fresh `volumeId` with `capacityBytes = 2147483648`; repeating
the identical call returns the identical `volumeId` and `capacityBytes`,
creating no image. -/
theorem createVolume_idempotentReuse_witness :
    (CreateVolume exSt0 exEnv exReq1).result = .ok ⟨"csi-rbd-u1", 2147483648⟩ ∧
    (CreateVolume (CreateVolume exSt0 exEnv exReq1).state exEnv exReq1).result
      = .ok ⟨"csi-rbd-u1", 2147483648⟩ ∧
    (CreateVolume (CreateVolume exSt0 exEnv exReq1).state exEnv
      exReq1).createdImages = [] := by
  refine ⟨rfl, ?_⟩
  exact createVolume_idempotentReuse exSt0 exEnv exEnv exReq1 exReq1
    ⟨"csi-rbd-u1", 2147483648⟩ rfl rfl rfl rfl (by decide)

/-! ## C2 -/

/-- C2: a `CreateVolume` call whose name matches an existing volume of
strictly smaller recorded size fails with `AlreadyExists`, creates no
backend image, and leaves the state (metadata store, in-memory index,
backend) unchanged. -/
theorem createVolume_conflictAlreadyExists
    (st : ControllerState) (env : CreateEnv) (req : CreateVolumeRequest)
    (exVol : RBDVolume)
    (hcap : env.capValid = true)
    (hname : req.name.length ≠ 0)
    (hvc : req.hasVolumeCapabilities = true)
    (hfound : getRBDVolumeByName st req.name = some exVol)
    (hsize : exVol.volSize < getRequiredBytes req) :
    (CreateVolume st env req).result = .error .alreadyExists ∧
    (CreateVolume st env req).state = st ∧
    (CreateVolume st env req).createdImages = [] := by
  simp [CreateVolume, hcap, hname, hvc, hfound, not_le.mpr hsize]

/-- Witness for C2: a 1 GiB volume named `pvc-1` already exists and the
call requests 2 GiB. -/
theorem createVolume_conflictAlreadyExists_witness :
    (CreateVolume
        ⟨[("csi-rbd-u0", ⟨"csi-rbd-u0", "pvc-1", "rbd", 1073741824⟩)], [],
          ["pvc-1"]⟩
        exEnv exReq1).result = .error .alreadyExists ∧
    (CreateVolume
        ⟨[("csi-rbd-u0", ⟨"csi-rbd-u0", "pvc-1", "rbd", 1073741824⟩)], [],
          ["pvc-1"]⟩
        exEnv exReq1).state =
      ⟨[("csi-rbd-u0", ⟨"csi-rbd-u0", "pvc-1", "rbd", 1073741824⟩)], [],
        ["pvc-1"]⟩ ∧
    (CreateVolume
        ⟨[("csi-rbd-u0", ⟨"csi-rbd-u0", "pvc-1", "rbd", 1073741824⟩)], [],
          ["pvc-1"]⟩
        exEnv exReq1).createdImages = [] :=
  createVolume_conflictAlreadyExists _ exEnv exReq1
    ⟨"csi-rbd-u0", "pvc-1", "rbd", 1073741824⟩
    rfl (by decide) rfl rfl (by decide)

/-! ## C3 -/

/-- Counterexample for C3: with `persistVolInfo` failing (`persistOk =
false`) and everything else healthy, `CreateVolume` still reports
success — the failure is only logged — and the durable store keeps no
record of the volume. The call does not return an Internal error. -/
theorem createVolume_persistFailure_counterexample :
    (CreateVolume exSt0 ⟨true, "u1", true, false⟩ exReq1).result
      = .ok ⟨"csi-rbd-u1", 2147483648⟩ ∧
    (CreateVolume exSt0 ⟨true, "u1", true, false⟩ exReq1).result
      ≠ .error .internal ∧
    (CreateVolume exSt0 ⟨true, "u1", true, false⟩ exReq1).state.persisted
      = [] := by
  have hok : (CreateVolume exSt0 ⟨true, "u1", true, false⟩ exReq1).result
      = .ok ⟨"csi-rbd-u1", 2147483648⟩ := rfl
  exact ⟨hok, fun hcontra => Except.noConfusion (hok.symm.trans hcontra), rfl⟩

/-- C3 (amended): when persisting the volume record fails, `CreateVolume`
does not fail — the error is only logged as a warning; the call returns
success with the new identity, the durable metadata store is left
unchanged, and the in-memory index is still updated. -/
theorem createVolume_persistFailure_ignored
    (st : ControllerState) (env : CreateEnv) (req : CreateVolumeRequest)
    (rbdVol0 : RBDVolume)
    (hcap : env.capValid = true)
    (hname : req.name.length ≠ 0)
    (hvc : req.hasVolumeCapabilities = true)
    (hlook : getRBDVolumeByName st req.name = none)
    (hopts : getRBDVolumeOptions req.parameters = some rbdVol0)
    (himg : env.createImageOk = true)
    (hpersist : env.persistOk = false) :
    (CreateVolume st env req).result
      = .ok ⟨"csi-rbd-" ++ env.uniqueID, volSizeBytesOf req⟩ ∧
    (CreateVolume st env req).state.persisted = st.persisted ∧
    (CreateVolume st env req).state.rbdVolumes
      = mapInsert st.rbdVolumes ("csi-rbd-" ++ env.uniqueID)
          ⟨"csi-rbd-" ++ env.uniqueID, req.name, rbdVol0.pool,
            volSizeBytesOf req⟩ := by
  by_cases hmem : req.name ∈ st.backendImages <;>
    simp [CreateVolume, createVolumeFinish, hcap, hname, hvc, hlook, hopts,
      himg, hpersist, hmem]

/-- Witness for the amended C3. -/
theorem createVolume_persistFailure_ignored_witness :
    (CreateVolume exSt0 ⟨true, "u1", true, false⟩ exReq1).result
      = .ok ⟨"csi-rbd-" ++ "u1", volSizeBytesOf exReq1⟩ ∧
    (CreateVolume exSt0 ⟨true, "u1", true, false⟩ exReq1).state.persisted
      = exSt0.persisted ∧
    (CreateVolume exSt0 ⟨true, "u1", true, false⟩ exReq1).state.rbdVolumes
      = mapInsert exSt0.rbdVolumes ("csi-rbd-" ++ "u1")
          ⟨"csi-rbd-" ++ "u1", exReq1.name, "rbd", volSizeBytesOf exReq1⟩ :=
  createVolume_persistFailure_ignored exSt0 ⟨true, "u1", true, false⟩ exReq1
    ⟨"", "", "rbd", 0⟩ rfl (by decide) rfl rfl rfl rfl rfl

/-! ## C4 -/

/-- C4: the removal effects of `DeleteVolume` always form a leading
segment of (backend image deletion, persisted-record deletion, in-memory
index removal) — so an earlier failing step suppresses all later steps,
and a record can outlive its image but never the reverse — and the call
succeeds exactly when all three effects completed. -/
theorem deleteVolume_effectOrder (st : ControllerState) (env : DeleteEnv)
    (volumeID : String) :
    (DeleteVolume st env volumeID).trace <+:
      [DeleteEffect.backendDelete, DeleteEffect.recordDelete,
        DeleteEffect.indexRemove] ∧
    ((DeleteVolume st env volumeID).result = .ok () ↔
      (DeleteVolume st env volumeID).trace =
        [DeleteEffect.backendDelete, DeleteEffect.recordDelete,
          DeleteEffect.indexRemove]) := by
  by_cases hc : env.capValid
  case neg => simp [DeleteVolume, hc]
  cases hlook : mapLookup st.persisted volumeID with
  | none => simp [DeleteVolume, hc, hlook]
  | some rbdVol =>
    by_cases hl : env.loadOk
    case neg => simp [DeleteVolume, hc, hlook, hl]
    by_cases hd : env.deleteImageOk
    case neg => simp [DeleteVolume, hc, hlook, hl, hd]
    by_cases hv : env.deleteVolInfoOk <;>
      simp [DeleteVolume, hc, hlook, hl, hd, hv]

/-! ## C9 -/

/-- Looking a key up right after `mapInsert` under the same key finds the
inserted value. -/
lemma mapLookup_insert_self {α : Type} (m : List (String × α)) (k : String)
    (v : α) : mapLookup (mapInsert m k v) k = some v := by
  unfold mapLookup mapInsert
  rw [List.find?_cons_of_pos]
  · rfl
  · simp

/-- C9: a fresh `CreateVolume` with no capacity range provisions exactly
1 GiB (1073741824 bytes): both the returned `capacityBytes` and the
`VolSize` of the persisted record are 1073741824. -/
theorem createVolume_defaultSizeOneGB
    (st : ControllerState) (env : CreateEnv) (req : CreateVolumeRequest)
    (rbdVol0 : RBDVolume)
    (hcap : env.capValid = true)
    (hname : req.name.length ≠ 0)
    (hvc : req.hasVolumeCapabilities = true)
    (hlook : getRBDVolumeByName st req.name = none)
    (hopts : getRBDVolumeOptions req.parameters = some rbdVol0)
    (himg : env.createImageOk = true)
    (hpersist : env.persistOk = true)
    (hrange : req.capacityRange = none) :
    (CreateVolume st env req).result
      = .ok ⟨"csi-rbd-" ++ env.uniqueID, 1073741824⟩ ∧
    mapLookup (CreateVolume st env req).state.persisted
        ("csi-rbd-" ++ env.uniqueID)
      = some ⟨"csi-rbd-" ++ env.uniqueID, req.name, rbdVol0.pool,
          1073741824⟩ := by
  have hsz : volSizeBytesOf req = 1073741824 := by
    simp [volSizeBytesOf, hrange, oneGB]
  by_cases hmem : req.name ∈ st.backendImages <;>
    simp [CreateVolume, createVolumeFinish, hcap, hname, hvc, hlook, hopts,
      himg, hpersist, hmem, hsz, mapLookup_insert_self]

/-- Witness for C9: a request with a nil capacity range. -/
theorem createVolume_defaultSizeOneGB_witness :
    (CreateVolume exSt0 exEnv ⟨"pvc-2", true, none, [("pool", "rbd")]⟩).result
      = .ok ⟨"csi-rbd-" ++ "u1", 1073741824⟩ ∧
    mapLookup
        (CreateVolume exSt0 exEnv
          ⟨"pvc-2", true, none, [("pool", "rbd")]⟩).state.persisted
        ("csi-rbd-" ++ "u1")
      = some ⟨"csi-rbd-" ++ "u1", "pvc-2", "rbd", 1073741824⟩ :=
  createVolume_defaultSizeOneGB exSt0 exEnv
    ⟨"pvc-2", true, none, [("pool", "rbd")]⟩ ⟨"", "", "rbd", 0⟩
    rfl (by decide) rfl rfl rfl rfl rfl rfl

/-! ## C10 -/

/-- C10: a fresh `CreateVolume` that creates a backend image creates it
with the requested byte size integer-divided by 2^30 gigabytes
(truncating toward zero, as the chained `int64` divisions by 1024 do),
while the response and the persisted record both report the exact
requested byte count. -/
theorem createVolume_imageSizeTruncatedGB
    (st : ControllerState) (env : CreateEnv) (req : CreateVolumeRequest)
    (rbdVol0 : RBDVolume) (bytes : Int)
    (hcap : env.capValid = true)
    (hname : req.name.length ≠ 0)
    (hvc : req.hasVolumeCapabilities = true)
    (hlook : getRBDVolumeByName st req.name = none)
    (hopts : getRBDVolumeOptions req.parameters = some rbdVol0)
    (hrange : req.capacityRange = some bytes)
    (hmem : req.name ∉ st.backendImages)
    (himg : env.createImageOk = true)
    (hpersist : env.persistOk = true) :
    (CreateVolume st env req).createdImages
      = [(req.name, volSizeGBOf bytes)] ∧
    (CreateVolume st env req).result
      = .ok ⟨"csi-rbd-" ++ env.uniqueID, bytes⟩ ∧
    mapLookup (CreateVolume st env req).state.persisted
        ("csi-rbd-" ++ env.uniqueID)
      = some ⟨"csi-rbd-" ++ env.uniqueID, req.name, rbdVol0.pool, bytes⟩ ∧
    (0 ≤ bytes → volSizeGBOf bytes = bytes.tdiv 1073741824) := by
  have hsz : volSizeBytesOf req = bytes := by simp [volSizeBytesOf, hrange]
  refine ⟨?_, ?_, ?_, ?_⟩
  · simp [CreateVolume, createVolumeFinish, hcap, hname, hvc, hlook, hopts,
      hmem, himg, hsz]
  · simp [CreateVolume, createVolumeFinish, hcap, hname, hvc, hlook, hopts,
      hmem, himg, hsz]
  · simp [CreateVolume, createVolumeFinish, hcap, hname, hvc, hlook, hopts,
      hmem, himg, hpersist, hsz, mapLookup_insert_self]
  · intro hb
    unfold volSizeGBOf
    rw [Int.tdiv_eq_ediv hb (by norm_num),
      Int.tdiv_eq_ediv (Int.ediv_nonneg hb (by norm_num)) (by norm_num),
      Int.tdiv_eq_ediv
        (Int.ediv_nonneg (Int.ediv_nonneg hb (by norm_num)) (by norm_num))
        (by norm_num),
      Int.tdiv_eq_ediv hb (by norm_num)]
    omega

/-- Witness for C10: `requiredBytes = 1000` lies strictly between 0 and
2^30; the backend image is created with size 0 GB while the response and
the persisted record both report the exact 1000 bytes. -/
theorem createVolume_imageSizeTruncatedGB_witness :
    (CreateVolume exSt0 exEnv
        ⟨"pvc-small", true, some 1000, [("pool", "rbd")]⟩).createdImages
      = [("pvc-small", volSizeGBOf 1000)] ∧
    (CreateVolume exSt0 exEnv
        ⟨"pvc-small", true, some 1000, [("pool", "rbd")]⟩).result
      = .ok ⟨"csi-rbd-" ++ "u1", 1000⟩ ∧
    mapLookup (CreateVolume exSt0 exEnv
        ⟨"pvc-small", true, some 1000, [("pool", "rbd")]⟩).state.persisted
        ("csi-rbd-" ++ "u1")
      = some ⟨"csi-rbd-" ++ "u1", "pvc-small", "rbd", 1000⟩ ∧
    volSizeGBOf 1000 = 0 ∧ (0:Int) < 1000 ∧ (1000:Int) < 1073741824 := by
  have h := createVolume_imageSizeTruncatedGB exSt0 exEnv
    ⟨"pvc-small", true, some 1000, [("pool", "rbd")]⟩ ⟨"", "", "rbd", 0⟩
    1000 rfl (by decide) rfl rfl rfl rfl (by decide) rfl rfl
  exact ⟨h.1, h.2.1, h.2.2.1, by decide, by decide, by decide⟩

/-! ## C5 -/

/-- The loop of `ValidateVolumeCapabilities` reports support exactly when
the access mode of every listed capability is single-node-writer. -/
lemma validateCapsLoop_supported (caps : List (Option AccessMode)) :
    (validateCapsLoop caps).supported = true ↔
      ∀ cap ∈ caps, getMode cap = AccessMode.singleNodeWriter := by
  induction caps with
  | nil => simp [validateCapsLoop]
  | cons c rest ih =>
    by_cases h : getMode c = AccessMode.singleNodeWriter
    · simp [validateCapsLoop, h, ih]
    · simp [validateCapsLoop, h]

/-! ## Node-side helper lemmas and examples -/

/-- Volume options of a dynamically provisioned cephfs volume. -/
def exOpts : VolumeOptions := ⟨"mon1", "/", true⟩

/-- The empty node state. -/
def exNodeSt0 : NodeState := ⟨[], []⟩

/-- A fully healthy stage environment for a dynamically provisioned
volume. -/
def exStageEnv : StageEnv :=
  ⟨true, some exOpts, true, true, true, some ⟨"admin", "adminkey"⟩, true,
    some ⟨"client.csi-user", "userkey"⟩, none, true, true⟩

/-- When the staging path is already a mount point (and the steps before
the probe succeed), `NodeStageVolume` returns success with no state
change and no effects. -/
lemma nodeStage_shortCircuit (st : NodeState) (env : StageEnv)
    (volId path : String)
    (hval : env.validateOk = true)
    (hopts : env.volOptions.isSome = true)
    (hmp : env.createMountPointOk = true)
    (hconf : env.writeConfOk = true)
    (hstat : env.statOk = true)
    (hmnt : path ∈ st.mounts) :
    (NodeStageVolume st env volId path).result = .ok () ∧
    (NodeStageVolume st env volId path).state = st ∧
    (NodeStageVolume st env volId path).effects = [] := by
  obtain ⟨opts, hopt⟩ := Option.isSome_iff_exists.mp hopts
  simp [NodeStageVolume, hval, hopt, hmp, hconf, hstat, hmnt]

/-- After a successful `NodeStageVolume`, the staging path is a mount
point in the successor state. -/
lemma nodeStage_ok_mem_mounts (st : NodeState) (env : StageEnv)
    (volId path : String)
    (h : (NodeStageVolume st env volId path).result = .ok ()) :
    path ∈ (NodeStageVolume st env volId path).state.mounts := by
  by_cases hval : env.validateOk
  case neg => simp [NodeStageVolume, hval] at h
  cases hopt : env.volOptions with
  | none => simp [NodeStageVolume, hval, hopt] at h
  | some opts =>
    by_cases hmp : env.createMountPointOk
    case neg => simp [NodeStageVolume, hval, hopt, hmp] at h
    by_cases hconf : env.writeConfOk
    case neg => simp [NodeStageVolume, hval, hopt, hmp, hconf] at h
    by_cases hstat : env.statOk
    case neg => simp [NodeStageVolume, hval, hopt, hmp, hconf, hstat] at h
    by_cases hmnt : path ∈ st.mounts
    · simp [NodeStageVolume, hval, hopt, hmp, hconf, hstat, hmnt]
    · cases hu : (getOrCreateUser st env opts volId).result with
      | none =>
        simp [NodeStageVolume, hval, hopt, hmp, hconf, hstat, hmnt, hu] at h
      | some cr =>
        by_cases hm : env.mountOk
        · simp [NodeStageVolume, hval, hopt, hmp, hconf, hstat, hmnt, hu, hm]
        · simp [NodeStageVolume, hval, hopt, hmp, hconf, hstat, hmnt, hu,
            hm] at h

/-- A `getOrCreateUser` that succeeds for a dynamically provisioned
volume performed exactly: admin resolve, admin store, cache insert, user
create, user store. -/
lemma getOrCreateUser_some_effects (st : NodeState) (env : StageEnv)
    (opts : VolumeOptions) (volId : String) (cr : Credentials × VolumeOptions)
    (hdyn : opts.provisionVolume = true)
    (h : (getOrCreateUser st env opts volId).result = some cr) :
    (getOrCreateUser st env opts volId).effects
      = [.credResolve, .credStore, .cacheIns, .userCreate, .credStore] := by
  cases ha : env.adminCreds with
  | none => simp [getOrCreateUser, hdyn, ha] at h
  | some adminCr =>
    by_cases hs : env.storeAdminOk
    case neg => simp [getOrCreateUser, hdyn, ha, hs] at h
    cases hc : env.createUserResult with
    | none => simp [getOrCreateUser, hdyn, ha, hs, hc] at h
    | some ent =>
      by_cases hsu : env.storeUserOk
      · simp [getOrCreateUser, hdyn, ha, hs, hc, hsu]
      · simp [getOrCreateUser, hdyn, ha, hs, hc, hsu] at h

/-- A successful `NodeStageVolume` that found the path unmounted, for a
dynamically provisioned volume, performed exactly one credential-creation
cycle followed by one mount. -/
lemma nodeStage_ok_effects (st : NodeState) (env : StageEnv)
    (volId path : String) (opts : VolumeOptions)
    (hopt : env.volOptions = some opts)
    (hdyn : opts.provisionVolume = true)
    (hmnt : path ∉ st.mounts)
    (h : (NodeStageVolume st env volId path).result = .ok ()) :
    (NodeStageVolume st env volId path).effects
      = [.credResolve, .credStore, .cacheIns, .userCreate, .credStore,
          .mountCall] := by
  by_cases hval : env.validateOk
  case neg => simp [NodeStageVolume, hval] at h
  by_cases hmp : env.createMountPointOk
  case neg => simp [NodeStageVolume, hval, hopt, hmp] at h
  by_cases hconf : env.writeConfOk
  case neg => simp [NodeStageVolume, hval, hopt, hmp, hconf] at h
  by_cases hstat : env.statOk
  case neg => simp [NodeStageVolume, hval, hopt, hmp, hconf, hstat] at h
  cases hu : (getOrCreateUser st env opts volId).result with
  | none =>
    simp [NodeStageVolume, hval, hopt, hmp, hconf, hstat, hmnt, hu] at h
  | some cr =>
    by_cases hm : env.mountOk
    · have heff := getOrCreateUser_some_effects st env opts volId cr hdyn hu
      simp [NodeStageVolume, hval, hopt, hmp, hconf, hstat, hmnt, hu, hm,
        heff]
    · simp [NodeStageVolume, hval, hopt, hmp, hconf, hstat, hmnt, hu,
        hm] at h

/-! ## C6 -/

/-- C6: when the mount-point probe reports the staging path already
mounted, `NodeStageVolume` returns success immediately with no credential
resolution or creation, no cache insertion, and no mount (no effects at
all, state unchanged); consequently two consecutive `NodeStageVolume`
calls for the same volume and path — the first of which mounts a
dynamically provisioned volume — perform exactly one mount and one
credential-creation cycle in total. -/
theorem nodeStage_idempotent :
    (∀ (st : NodeState) (env : StageEnv) (volId path : String),
      env.validateOk = true → env.volOptions.isSome = true →
      env.createMountPointOk = true → env.writeConfOk = true →
      env.statOk = true → path ∈ st.mounts →
      (NodeStageVolume st env volId path).result = .ok () ∧
      (NodeStageVolume st env volId path).state = st ∧
      (NodeStageVolume st env volId path).effects = []) ∧
    (∀ (st : NodeState) (env1 env2 : StageEnv) (volId path : String)
      (opts : VolumeOptions),
      env1.volOptions = some opts → opts.provisionVolume = true →
      path ∉ st.mounts →
      (NodeStageVolume st env1 volId path).result = .ok () →
      env2.validateOk = true → env2.volOptions.isSome = true →
      env2.createMountPointOk = true → env2.writeConfOk = true →
      env2.statOk = true →
      (NodeStageVolume (NodeStageVolume st env1 volId path).state env2 volId
        path).result = .ok () ∧
      (NodeStageVolume (NodeStageVolume st env1 volId path).state env2 volId
        path).state = (NodeStageVolume st env1 volId path).state ∧
      ((NodeStageVolume st env1 volId path).effects ++
        (NodeStageVolume (NodeStageVolume st env1 volId path).state env2
          volId path).effects).count NodeEff.mountCall = 1 ∧
      ((NodeStageVolume st env1 volId path).effects ++
        (NodeStageVolume (NodeStageVolume st env1 volId path).state env2
          volId path).effects).count NodeEff.userCreate = 1) := by
  constructor
  · intro st env volId path hval hopts hmp hconf hstat hmnt
    exact nodeStage_shortCircuit st env volId path hval hopts hmp hconf hstat
      hmnt
  · intro st env1 env2 volId path opts hopt hdyn hmnt h1 hval2 hopts2 hmp2
      hconf2 hstat2
    have hmem := nodeStage_ok_mem_mounts st env1 volId path h1
    have hsc := nodeStage_shortCircuit _ env2 volId path hval2 hopts2 hmp2
      hconf2 hstat2 hmem
    have heff := nodeStage_ok_effects st env1 volId path opts hopt hdyn hmnt h1
    refine ⟨hsc.1, hsc.2.1, ?_, ?_⟩
    · rw [heff, hsc.2.2]; rfl
    · rw [heff, hsc.2.2]; rfl

/-- Witness for C6: staging an already-mounted path is a no-op success;
and a fresh dynamic stage followed by a repeat call yields one mount and
one user creation in total. -/
theorem nodeStage_idempotent_witness :
    ((NodeStageVolume ⟨[], ["/stage"]⟩ exStageEnv "vol-1" "/stage").result
        = .ok () ∧
      (NodeStageVolume ⟨[], ["/stage"]⟩ exStageEnv "vol-1" "/stage").state
        = ⟨[], ["/stage"]⟩ ∧
      (NodeStageVolume ⟨[], ["/stage"]⟩ exStageEnv "vol-1" "/stage").effects
        = []) ∧
    ((NodeStageVolume (NodeStageVolume exNodeSt0 exStageEnv "vol-1"
        "/stage").state exStageEnv "vol-1" "/stage").result = .ok () ∧
      ((NodeStageVolume exNodeSt0 exStageEnv "vol-1" "/stage").effects ++
        (NodeStageVolume (NodeStageVolume exNodeSt0 exStageEnv "vol-1"
          "/stage").state exStageEnv "vol-1" "/stage").effects).count
        NodeEff.mountCall = 1 ∧
      ((NodeStageVolume exNodeSt0 exStageEnv "vol-1" "/stage").effects ++
        (NodeStageVolume (NodeStageVolume exNodeSt0 exStageEnv "vol-1"
          "/stage").state exStageEnv "vol-1" "/stage").effects).count
        NodeEff.userCreate = 1) := by
  have h1 := nodeStage_idempotent.1 ⟨[], ["/stage"]⟩ exStageEnv "vol-1"
    "/stage" rfl rfl rfl rfl rfl (by decide)
  have h2 := nodeStage_idempotent.2 exNodeSt0 exStageEnv exStageEnv "vol-1"
    "/stage" exOpts rfl rfl (by decide) rfl rfl rfl rfl rfl rfl
  exact ⟨h1, h2.1, h2.2.2.1, h2.2.2.2⟩

/-! ## C7 -/

/-- C7: when `NodeUnstageVolume` pops the entry of a dynamically
provisioned volume and the dedicated-user deletion fails, the popped
entry is reinserted unchanged and the call returns Internal — the entry
is observable again under the same volume ID afterward. -/
theorem nodeUnstage_reinsertOnDeleteUserFailure
    (st : NodeState) (env : UnstageEnv) (volId path : String)
    (ent : NodeCacheEntry)
    (hval : env.validateOk = true)
    (hum : env.unmountOk = true)
    (hent : mapLookup st.nodeCache volId = some ent)
    (hdyn : ent.volOptions.provisionVolume = true)
    (hdel : env.deleteUserOk = false) :
    (NodeUnstageVolume st env volId path).result = .error .internal ∧
    mapLookup (NodeUnstageVolume st env volId path).state.nodeCache volId
      = some ent := by
  simp [NodeUnstageVolume, nodeCachePop, hval, hum, hent, hdyn, hdel,
    mapLookup_insert_self]

/-- Witness for C7: a staged dynamic volume whose user deletion fails. -/
theorem nodeUnstage_reinsertOnDeleteUserFailure_witness :
    (NodeUnstageVolume ⟨[("vol-1", ⟨exOpts, "admin"⟩)], ["/stage"]⟩
        ⟨true, true, false⟩ "vol-1" "/stage").result = .error .internal ∧
    mapLookup (NodeUnstageVolume ⟨[("vol-1", ⟨exOpts, "admin"⟩)], ["/stage"]⟩
        ⟨true, true, false⟩ "vol-1" "/stage").state.nodeCache "vol-1"
      = some ⟨exOpts, "admin"⟩ :=
  nodeUnstage_reinsertOnDeleteUserFailure
    ⟨[("vol-1", ⟨exOpts, "admin"⟩)], ["/stage"]⟩ ⟨true, true, false⟩
    "vol-1" "/stage" ⟨exOpts, "admin"⟩ rfl rfl rfl rfl rfl

/-! ## C8 -/

/-- Counterexample for C8: a `NodeStageVolume` call on an empty node that
fails during dedicated-user creation leaves the node-cache entry behind
while the staging path is not mounted — so an entry exists for a volume
that is not staged, and the failed call did not remove it. -/
theorem nodeCacheEntry_invariant_counterexample :
    (NodeStageVolume exNodeSt0
        ⟨true, some exOpts, true, true, true, some ⟨"admin", "adminkey"⟩,
          true, none, none, true, true⟩ "vol-1" "/stage").result
      = .error .internal ∧
    mapLookup (NodeStageVolume exNodeSt0
        ⟨true, some exOpts, true, true, true, some ⟨"admin", "adminkey"⟩,
          true, none, none, true, true⟩ "vol-1" "/stage").state.nodeCache
        "vol-1"
      = some ⟨exOpts, "admin"⟩ ∧
    "/stage" ∉ (NodeStageVolume exNodeSt0
        ⟨true, some exOpts, true, true, true, some ⟨"admin", "adminkey"⟩,
          true, none, none, true, true⟩ "vol-1" "/stage").state.mounts := by
  refine ⟨rfl, rfl, ?_⟩
  decide

/-- C8 (amended): the node-cache entry is inserted before the dedicated
user is created and before the mount, and a `NodeStageVolume` call that
fails after that insertion (during user creation, credential persistence,
or the mount) leaves the entry in the cache while the volume is not
staged — entry existence does not imply the volume is staged. -/
theorem nodeStage_failureAfterInsertLeavesEntry
    (st : NodeState) (env : StageEnv) (volId path : String)
    (opts : VolumeOptions) (adminCr : Credentials)
    (hval : env.validateOk = true)
    (hopt : env.volOptions = some opts)
    (hmp : env.createMountPointOk = true)
    (hconf : env.writeConfOk = true)
    (hstat : env.statOk = true)
    (hmnt : path ∉ st.mounts)
    (hdyn : opts.provisionVolume = true)
    (hadmin : env.adminCreds = some adminCr)
    (hstore : env.storeAdminOk = true)
    (hfail : env.createUserResult = none ∨ env.storeUserOk = false ∨
      env.mountOk = false) :
    (NodeStageVolume st env volId path).result = .error .internal ∧
    mapLookup (NodeStageVolume st env volId path).state.nodeCache volId
      = some ⟨opts, adminCr.id⟩ ∧
    path ∉ (NodeStageVolume st env volId path).state.mounts := by
  rcases hfail with hf | hf | hf
  · simp [NodeStageVolume, getOrCreateUser, hval, hopt, hmp, hconf, hstat,
      hmnt, hdyn, hadmin, hstore, hf, mapLookup_insert_self]
  · cases hc : env.createUserResult with
    | none =>
      simp [NodeStageVolume, getOrCreateUser, hval, hopt, hmp, hconf, hstat,
        hmnt, hdyn, hadmin, hstore, hc, mapLookup_insert_self]
    | some ent =>
      simp [NodeStageVolume, getOrCreateUser, hval, hopt, hmp, hconf, hstat,
        hmnt, hdyn, hadmin, hstore, hc, hf, mapLookup_insert_self]
  · cases hc : env.createUserResult with
    | none =>
      simp [NodeStageVolume, getOrCreateUser, hval, hopt, hmp, hconf, hstat,
        hmnt, hdyn, hadmin, hstore, hc, mapLookup_insert_self]
    | some ent =>
      by_cases hsu : env.storeUserOk
      · simp [NodeStageVolume, getOrCreateUser, hval, hopt, hmp, hconf,
          hstat, hmnt, hdyn, hadmin, hstore, hc, hsu, hf,
          mapLookup_insert_self]
      · simp [NodeStageVolume, getOrCreateUser, hval, hopt, hmp, hconf,
          hstat, hmnt, hdyn, hadmin, hstore, hc, hsu, mapLookup_insert_self]

/-- Witness for the amended C8: the mount itself fails after the entry
was inserted and the user created. -/
theorem nodeStage_failureAfterInsertLeavesEntry_witness :
    (NodeStageVolume exNodeSt0
        ⟨true, some exOpts, true, true, true, some ⟨"admin", "adminkey"⟩,
          true, some ⟨"client.csi-user", "userkey"⟩, none, true, false⟩
        "vol-1" "/stage").result = .error .internal ∧
    mapLookup (NodeStageVolume exNodeSt0
        ⟨true, some exOpts, true, true, true, some ⟨"admin", "adminkey"⟩,
          true, some ⟨"client.csi-user", "userkey"⟩, none, true, false⟩
        "vol-1" "/stage").state.nodeCache "vol-1"
      = some ⟨exOpts, "admin"⟩ ∧
    "/stage" ∉ (NodeStageVolume exNodeSt0
        ⟨true, some exOpts, true, true, true, some ⟨"admin", "adminkey"⟩,
          true, some ⟨"client.csi-user", "userkey"⟩, none, true, false⟩
        "vol-1" "/stage").state.mounts :=
  nodeStage_failureAfterInsertLeavesEntry exNodeSt0 _ "vol-1" "/stage"
    exOpts ⟨"admin", "adminkey"⟩ rfl rfl rfl rfl rfl (by decide) rfl rfl rfl
    (Or.inr (Or.inr rfl))

/-- C5: `ValidateVolumeCapabilities` always returns a data response
(never a protocol error), and it reports `supported = true` exactly when
the access mode of every requested capability is single-node-writer — so in
particular the empty list is supported. -/
theorem validateVolumeCapabilities_supported_iff
    (caps : List (Option AccessMode)) :
    ∃ resp, ValidateVolumeCapabilities caps = .ok resp ∧
      (resp.supported = true ↔
        ∀ cap ∈ caps, getMode cap = AccessMode.singleNodeWriter) ∧
      (caps = [] → resp.supported = true) := by
  refine ⟨validateCapsLoop caps, rfl, validateCapsLoop_supported caps, ?_⟩
  rintro rfl
  rfl

end CephCsi
